import Mathlib

/-!
Verification of the image-processing pipeline exposed as `POST /processImage`
in `main.py`: configuration check, remote fetch, content-type resolution,
raw-artifact upload, decode, geometric normalisation (aspect-preserving
resize), encoding normalisation (pixel-mode coercion), WebP transcode,
processed-artifact upload, and report assembly.

Real arithmetic from the source (Python floats) is embedded over `ℚ`;
Python `round` is banker's rounding (ties to even), embedded as `pyRound`.
External effects (HTTP fetch, S3 puts, Pillow decode/encode) are oracles
supplied through a `PipelineEnv`, and every external call the pipeline makes
is recorded in a trace of `ComponentCall`s.
-/

namespace AxentApis

/-- Python `round(x)`: round half to even, on rationals. -/
def pyRound (q : ℚ) : ℤ :=
  if q - ⌊q⌋ < 1/2 then ⌊q⌋
  else if 1/2 < q - ⌊q⌋ then ⌊q⌋ + 1
  else if ⌊q⌋ % 2 = 0 then ⌊q⌋ else ⌊q⌋ + 1

/-- Python `round(x, 2)`: round to two decimal places. -/
def round2 (q : ℚ) : ℚ := (pyRound (q * 100) : ℚ) / 100

theorem pyRound_sub_le (q : ℚ) : |(pyRound q : ℚ) - q| ≤ 1/2 := by
  have h0 : (⌊q⌋ : ℚ) ≤ q := Int.floor_le q
  have h1 : q < ⌊q⌋ + 1 := Int.lt_floor_add_one q
  unfold pyRound
  split_ifs with ha hb hc <;> rw [abs_le] <;> constructor <;> push_cast <;> linarith

theorem pyRound_nonneg (q : ℚ) (h : 0 ≤ q) : 0 ≤ pyRound q := by
  have h0 : (0 : ℤ) ≤ ⌊q⌋ := Int.floor_nonneg.mpr h
  unfold pyRound
  split_ifs <;> omega

/-- `ext_map.get(content_type, '.jpg')` from `process_image` (main.py 260–268). -/
def extMap (ct : String) : String :=
  if ct = "image/jpeg" then ".jpg"
  else if ct = "image/png" then ".png"
  else if ct = "image/gif" then ".gif"
  else if ct = "image/webp" then ".webp"
  else if ct = "image/bmp" then ".bmp"
  else if ct = "image/tiff" then ".tiff"
  else ".jpg"

/-- The six recognised MIME types of the resolver's mapping table. -/
def knownContentTypes : List String :=
  ["image/jpeg", "image/png", "image/gif", "image/webp", "image/bmp", "image/tiff"]

/-- The extensions the resolver can produce. -/
def extList : List String := [".jpg", ".png", ".gif", ".webp", ".bmp", ".tiff"]

theorem extMap_mem_extList (ct : String) : extMap ct ∈ extList := by
  unfold extMap extList
  split_ifs <;> simp

/-- `response.headers.get('Content-Type', 'image/jpeg')` (main.py 259). -/
def defaultContentType (h : Option String) : String := h.getD "image/jpeg"

/-- The Shopify maximum-dimension limit (main.py 292). -/
def maxDimension : ℕ := 4000

/-- The resize computation of `process_image` (main.py 291–311): if either
dimension exceeds 4000 the larger dimension is scaled to exactly 4000 and the
other is scaled proportionally and rounded (`round(other * (4000 / larger))`);
returns (new width, new height, needs_resize). Ties between width and height
take the width branch (`original_width >= original_height`). -/
def resizeDims (w h : ℕ) : ℕ × ℕ × Bool :=
  if maxDimension < w ∨ maxDimension < h then
    if h ≤ w then
      (maxDimension, (pyRound ((h : ℚ) * (maxDimension : ℚ) / (w : ℚ))).toNat, true)
    else
      ((pyRound ((w : ℚ) * (maxDimension : ℚ) / (h : ℚ))).toNat, maxDimension, true)
  else (w, h, false)

/-- Pillow pixel modes producible by `Image.open` for the formats the service
accepts (JPEG, PNG, GIF, WebP, BMP, TIFF): bilevel, grayscale (8/16/32-bit,
float), grayscale+alpha, palette, RGB, RGBA, CMYK, YCbCr. -/
inductive PILMode where
  | one
  | L
  | LA
  | I
  | I16
  | F
  | P
  | RGB
  | RGBA
  | CMYK
  | YCbCr
  deriving DecidableEq

/-- Modes that carry an alpha channel. -/
def alphaCapable : PILMode → Bool
  | .RGBA => true
  | .LA => true
  | _ => false

/-- A decoded in-memory image: pixel mode, dimensions, and whether the pixel
data carries transparency information (a non-opaque alpha channel, or palette
transparency for mode `P`). -/
structure PILImage where
  mode : PILMode
  width : ℕ
  height : ℕ
  transparent : Bool
  deriving DecidableEq

/-- `image.convert(m)`: transparency survives exactly when the target mode can
hold an alpha channel (Pillow materialises palette transparency into the alpha
channel when converting `P` to `RGBA`, and drops it when converting to `RGB`). -/
def PILImage.convert (img : PILImage) (m : PILMode) : PILImage :=
  { img with mode := m, transparent := img.transparent && alphaCapable m }

/-- `image.resize((w, h))`: mode and pixel transparency are unchanged. -/
def PILImage.resizeTo (img : PILImage) (w h : ℕ) : PILImage :=
  { img with width := w, height := h }

/-- The mode-coercion block of `process_image` (main.py 313–319):
`if mode in ('RGBA', 'LA', 'P'): if mode == 'P': convert('RGBA')`
`elif mode != 'RGB': convert('RGB')`. -/
def normalizeEncoding (img : PILImage) : PILImage :=
  if img.mode = .RGBA ∨ img.mode = .LA ∨ img.mode = .P then
    if img.mode = .P then img.convert .RGBA else img
  else if img.mode ≠ .RGB then img.convert .RGB
  else img

/-- Decimal digit character for `d < 10`. -/
def digitChar (d : ℕ) : Char := Char.ofNat (48 + d)

/-- Decimal rendering of a natural number, fuelled. -/
def natDigitsAux : ℕ → ℕ → List Char
  | 0, _ => []
  | fuel + 1, n =>
    if n < 10 then [digitChar n]
    else natDigitsAux fuel (n / 10) ++ [digitChar (n % 10)]

/-- The timestamp token `f"{timestamp}"`: the decimal rendering of
`int(time.time() * 1000)` (main.py 239–241). -/
def natToken (n : ℕ) : String := String.mk (natDigitsAux (n + 1) n)

theorem digitChar_isDigit {d : ℕ} (h : d < 10) : (digitChar d).isDigit = true := by
  interval_cases d <;> decide

theorem natDigitsAux_isDigit :
    ∀ fuel n c, c ∈ natDigitsAux fuel n → c.isDigit = true := by
  intro fuel
  induction fuel with
  | zero => intro n c hc; simp [natDigitsAux] at hc
  | succ fuel ih =>
    intro n c hc
    rw [natDigitsAux] at hc
    split at hc
    · next h =>
      simp only [List.mem_singleton] at hc
      exact hc ▸ digitChar_isDigit h
    · next h =>
      rcases List.mem_append.mp hc with h1 | h1
      · exact ih _ _ h1
      · simp only [List.mem_singleton] at h1
        exact h1 ▸ digitChar_isDigit (Nat.mod_lt _ (by omega))

theorem natToken_isDigit {n : ℕ} {c : Char} (hc : c ∈ (natToken n).data) :
    c.isDigit = true :=
  natDigitsAux_isDigit _ _ _ hc

theorem natToken_no_underscore (n : ℕ) : '_' ∉ (natToken n).data := by
  intro h
  have := natToken_isDigit h
  simp at this

theorem natToken_ne_empty (n : ℕ) : (natToken n).data ≠ [] := by
  show natDigitsAux (n + 1) n ≠ []
  rw [natDigitsAux]
  split <;> simp

/-- `raw_filename = f"images/{variant_id}_{timestamp}_raw"` (main.py 240). -/
def rawKeyBase (vid tok : String) : String :=
  "images/" ++ vid ++ "_" ++ tok ++ "_raw"

/-- `raw_filename_with_ext = f"{raw_filename}{original_ext}"` (main.py 269). -/
def rawKey (vid tok ext : String) : String := rawKeyBase vid tok ++ ext

/-- `processed_filename = f"images/{variant_id}_{timestamp}_processed.webp"`
(main.py 241). -/
def processedKey (vid tok : String) : String :=
  "images/" ++ vid ++ "_" ++ tok ++ "_processed.webp"

/-! Generic facts about splitting a character list at a separator. -/

theorem sep_split_head :
    ∀ (x1 x2 r1 r2 : List Char), '_' ∉ x1 → '_' ∉ x2 →
      x1 ++ '_' :: r1 = x2 ++ '_' :: r2 → x1 = x2 ∧ r1 = r2 := by
  intro x1
  induction x1 with
  | nil =>
    intro x2 r1 r2 _ h2 h
    cases x2 with
    | nil => simpa using h
    | cons d ds =>
      simp only [List.nil_append, List.cons_append, List.cons.injEq] at h
      exact absurd (h.1 ▸ List.mem_cons_self d ds) (h.1 ▸ h2)
  | cons c cs ih =>
    intro x2 r1 r2 h1 h2 h
    cases x2 with
    | nil =>
      simp only [List.nil_append, List.cons_append, List.cons.injEq] at h
      exact absurd (h.1 ▸ List.mem_cons_self c cs) (by simp_all)
    | cons d ds =>
      simp only [List.cons_append, List.cons.injEq] at h
      obtain ⟨hcd, htl⟩ := h
      have := ih ds r1 r2 (fun hm => h1 (List.mem_cons_of_mem _ hm))
        (fun hm => h2 (List.mem_cons_of_mem _ hm)) htl
      exact ⟨by rw [hcd, this.1], this.2⟩

theorem sep_split_last {l1 l2 t1 t2 : List Char}
    (h1 : '_' ∉ t1) (h2 : '_' ∉ t2)
    (h : l1 ++ '_' :: t1 = l2 ++ '_' :: t2) : l1 = l2 ∧ t1 = t2 := by
  have hr := congrArg List.reverse h
  simp only [List.reverse_append, List.reverse_cons, List.append_assoc,
    List.singleton_append] at hr
  have := sep_split_head t1.reverse t2.reverse l1.reverse l2.reverse
    (by simpa using h1) (by simpa using h2) hr
  exact ⟨List.reverse_injective this.2, List.reverse_injective this.1⟩

theorem data_append (s t : String) : (s ++ t).data = s.data ++ t.data :=
  String.data_append s t

/-- Shape of a raw key's character data: everything before the last
underscore, then the underscore-free tail `raw{ext}`. -/
theorem rawKey_data (vid tok ext : String) :
    (rawKey vid tok ext).data =
      ("images/".data ++ vid.data ++ '_' :: tok.data) ++
        '_' :: ("raw".data ++ ext.data) := by
  simp [rawKey, rawKeyBase, data_append, List.append_assoc]

/-- Shape of a processed key's character data. -/
theorem processedKey_data (vid tok : String) :
    (processedKey vid tok).data =
      ("images/".data ++ vid.data ++ '_' :: tok.data) ++
        '_' :: "processed.webp".data := by
  simp [processedKey, data_append, List.append_assoc]

theorem mem_extList_iff {e : String} (he : e ∈ extList) :
    e = ".jpg" ∨ e = ".png" ∨ e = ".gif" ∨ e = ".webp" ∨ e = ".bmp" ∨
      e = ".tiff" := by
  simpa [extList] using he

theorem ext_tail_no_underscore {e : String} (he : e ∈ extList) :
    '_' ∉ ("raw".data ++ e.data) := by
  rcases mem_extList_iff he with h | h | h | h | h | h <;> subst h <;> decide

theorem rawKey_ne_processedKey {v1 v2 tok1 tok2 e : String} (he : e ∈ extList) :
    rawKey v1 tok1 e ≠ processedKey v2 tok2 := by
  intro h
  have hd := congrArg String.data h
  rw [rawKey_data, processedKey_data] at hd
  have hs := sep_split_last (ext_tail_no_underscore he) (by decide) hd
  rcases mem_extList_iff he with h6 | h6 | h6 | h6 | h6 | h6 <;> subst h6 <;>
    exact absurd hs.2 (by decide)

theorem rawKey_inj_token {v1 v2 tok1 tok2 e1 e2 : String}
    (he1 : e1 ∈ extList) (he2 : e2 ∈ extList)
    (h1 : '_' ∉ tok1.data) (h2 : '_' ∉ tok2.data)
    (h : rawKey v1 tok1 e1 = rawKey v2 tok2 e2) : tok1 = tok2 := by
  have hd := congrArg String.data h
  rw [rawKey_data, rawKey_data] at hd
  have hh := (sep_split_last (ext_tail_no_underscore he1)
    (ext_tail_no_underscore he2) hd).1
  rw [List.append_assoc, List.append_assoc, ← List.append_assoc ("images/".data),
    ← List.append_assoc ("images/".data)] at hh
  exact String.ext ((sep_split_last h1 h2 hh).2)

theorem processedKey_inj_token {v1 v2 tok1 tok2 : String}
    (h1 : '_' ∉ tok1.data) (h2 : '_' ∉ tok2.data)
    (h : processedKey v1 tok1 = processedKey v2 tok2) : tok1 = tok2 := by
  have hd := congrArg String.data h
  rw [processedKey_data, processedKey_data] at hd
  have hh := (sep_split_last (by decide) (by decide) hd).1
  rw [List.append_assoc, List.append_assoc, ← List.append_assoc ("images/".data),
    ← List.append_assoc ("images/".data)] at hh
  exact String.ext ((sep_split_last h1 h2 hh).2)

/-- The S3 configuration read from the environment (main.py 29–32). Each
credential is `Option String`: `none` when the variable is unset. -/
structure S3Config where
  accessKeyId : Option String
  secretAccessKey : Option String
  bucketName : Option String
  region : String
  deriving DecidableEq

/-- Python truthiness of an `Optional[str]`: `None` and `""` are falsy. -/
def truthy : Option String → Bool
  | none => false
  | some s => s != ""

/-- `all([AWS_ACCESS_KEY_ID, AWS_SECRET_ACCESS_KEY, AWS_S3_BUCKET_NAME])`
(main.py 232). -/
def configOk (c : S3Config) : Bool :=
  truthy c.accessKeyId && truthy c.secretAccessKey && truthy c.bucketName

/-- The `requests` response: status code, optional `Content-Type` header,
body bytes. -/
structure HTTPResponse where
  status : ℕ
  contentType : Option String
  body : List ℕ
  deriving DecidableEq

/-- `response.raise_for_status()` raises exactly for status codes in
`[400, 600)` (4xx client errors and 5xx server errors). -/
def raisesForStatus (s : ℕ) : Bool := 400 ≤ s && s < 600

/-- The request body of `POST /processImage` (main.py 67–70). The
`quality` field is a plain pydantic `int` with no range validator. -/
structure ImageProcessRequest where
  image_url : String
  variant_id : String := "product"
  quality : ℤ := 85
  deriving DecidableEq

/-- Error kinds of the pipeline, matching the exception sources caught at
main.py 363–368: missing configuration, download failure
(`requests.exceptions.RequestException`), S3 failure (`ClientError`),
Pillow decode/encode failures, and the division-by-zero in the
compression-ratio computation when the fetched body is empty. -/
inductive ErrKind where
  | configError
  | fetchError
  | storageError
  | decodeError
  | encodeError
  | arithmeticError
  deriving DecidableEq

/-- The uniform error envelope (`HTTPException(status_code, detail)`). -/
structure ErrorResponse where
  status : ℕ
  kind : ErrKind
  deriving DecidableEq

/-- The success payload assembled at main.py 339–362. -/
structure PipelineReport where
  processed_url : String
  raw_url : String
  raw_filename : String
  processed_filename : String
  original_size_bytes : ℕ
  processed_size_bytes : ℕ
  compression_ratio : ℚ
  original_width : ℕ
  original_height : ℕ
  original_megapixels : ℚ
  final_width : ℕ
  final_height : ℕ
  final_megapixels : ℚ
  was_resized : Bool
  deriving DecidableEq

/-- One call to an external collaborator, in the order issued. The pipeline
never issues a delete, so `deleteObject` never occurs in a trace. -/
inductive ComponentCall where
  | fetchImage (url : String)
  | putObject (key : String)
  | decodeCall
  | encodeCall (mode : PILMode) (quality : ℤ)
  | deleteObject (key : String)
  deriving DecidableEq

/-- Oracles for the external world of one invocation: the configuration, the
outcome of `requests.get`, of the two `put_object` calls, of `Image.open`,
and of `image.save(format='WEBP', quality=...)` as a function of the buffer
handed to the encoder and the quality value. -/
structure PipelineEnv where
  config : S3Config
  fetchResult : Except Unit HTTPResponse
  putRawResult : Except Unit Unit
  decodeResult : Except Unit PILImage
  encodeResult : PILImage → ℤ → Except Unit (List ℕ)
  putProcessedResult : Except Unit Unit

/-- The buffer handed to the WebP encoder: the decoded image after the
resize (main.py 291–311) and the mode coercion (main.py 313–319). -/
def decodedFinal (img : PILImage) : PILImage :=
  normalizeEncoding
    (img.resizeTo (resizeDims img.width img.height).1
      (resizeDims img.width img.height).2.1)

/-- The raw-artifact storage key of one invocation. -/
def rawKeyOf (req : ImageProcessRequest) (ts : ℕ) (resp : HTTPResponse) :
    String :=
  rawKey req.variant_id (natToken ts) (extMap (defaultContentType resp.contentType))

/-- The processed-artifact storage key of one invocation. -/
def processedKeyOf (req : ImageProcessRequest) (ts : ℕ) : String :=
  processedKey req.variant_id (natToken ts)

/-- Virtual-hosted-style public URL (main.py 336–337). -/
def publicUrl (bucket region key : String) : String :=
  "https://" ++ bucket ++ ".s3." ++ region ++ ".amazonaws.com/" ++ key

/-- The component calls of a complete successful run. -/
def successCalls (req : ImageProcessRequest) (ts : ℕ) (resp : HTTPResponse)
    (img : PILImage) : List ComponentCall :=
  [.fetchImage req.image_url, .putObject (rawKeyOf req ts resp), .decodeCall,
   .encodeCall (decodedFinal img).mode req.quality,
   .putObject (processedKeyOf req ts)]

/-- The `PipelineReport` assembled at main.py 339–362. -/
def successReport (cfg : S3Config) (req : ImageProcessRequest) (ts : ℕ)
    (resp : HTTPResponse) (img : PILImage) (webp : List ℕ) : PipelineReport :=
  { processed_url :=
      publicUrl (cfg.bucketName.getD "") cfg.region (processedKeyOf req ts)
    raw_url := publicUrl (cfg.bucketName.getD "") cfg.region (rawKeyOf req ts resp)
    raw_filename := rawKeyOf req ts resp
    processed_filename := processedKeyOf req ts
    original_size_bytes := resp.body.length
    processed_size_bytes := webp.length
    compression_ratio :=
      round2 ((1 - (webp.length : ℚ) / (resp.body.length : ℚ)) * 100)
    original_width := img.width
    original_height := img.height
    original_megapixels :=
      round2 (((img.width : ℚ) * (img.height : ℚ)) / 1000000)
    final_width := (resizeDims img.width img.height).1
    final_height := (resizeDims img.width img.height).2.1
    final_megapixels :=
      round2 ((((resizeDims img.width img.height).1 : ℚ) *
        ((resizeDims img.width img.height).2.1 : ℚ)) / 1000000)
    was_resized := (resizeDims img.width img.height).2.2 }

/-- The `process_image` handler (main.py 230–368): validates the S3
configuration, fetches the image, resolves the extension, uploads the raw
artifact, decodes, resizes, normalises the pixel mode, encodes to WebP,
uploads the processed artifact and assembles the report. Returns the list
of external calls issued and either the report or the error envelope.
The division by `len(raw_image_data)` in the ratio raises
`ZeroDivisionError` (caught as a generic 500) when the body is empty. -/
def processImage (env : PipelineEnv) (req : ImageProcessRequest) (ts : ℕ) :
    List ComponentCall × Except ErrorResponse PipelineReport :=
  if configOk env.config then
    match env.fetchResult with
    | .error _ => ([.fetchImage req.image_url], .error ⟨400, .fetchError⟩)
    | .ok resp =>
      if raisesForStatus resp.status then
        ([.fetchImage req.image_url], .error ⟨400, .fetchError⟩)
      else
        match env.putRawResult with
        | .error _ =>
          ([.fetchImage req.image_url, .putObject (rawKeyOf req ts resp)],
           .error ⟨500, .storageError⟩)
        | .ok _ =>
          match env.decodeResult with
          | .error _ =>
            ([.fetchImage req.image_url, .putObject (rawKeyOf req ts resp),
              .decodeCall], .error ⟨500, .decodeError⟩)
          | .ok img =>
            match env.encodeResult (decodedFinal img) req.quality with
            | .error _ =>
              ([.fetchImage req.image_url, .putObject (rawKeyOf req ts resp),
                .decodeCall, .encodeCall (decodedFinal img).mode req.quality],
               .error ⟨500, .encodeError⟩)
            | .ok webp =>
              match env.putProcessedResult with
              | .error _ =>
                (successCalls req ts resp img, .error ⟨500, .storageError⟩)
              | .ok _ =>
                if resp.body.length = 0 then
                  (successCalls req ts resp img, .error ⟨500, .arithmeticError⟩)
                else
                  (successCalls req ts resp img,
                   .ok (successReport env.config req ts resp img webp))
  else ([], .error ⟨500, .configError⟩)

/-! Per-stage behaviour of the pipeline, one lemma per outcome. -/

theorem processImage_config_missing (env : PipelineEnv)
    (req : ImageProcessRequest) (ts : ℕ) (hc : configOk env.config = false) :
    processImage env req ts = ([], .error ⟨500, .configError⟩) := by
  simp [processImage, hc]

theorem processImage_network_fail (env : PipelineEnv)
    (req : ImageProcessRequest) (ts : ℕ) (hc : configOk env.config = true)
    (hf : env.fetchResult = .error ()) :
    processImage env req ts =
      ([.fetchImage req.image_url], .error ⟨400, .fetchError⟩) := by
  simp [processImage, hc, hf]

theorem processImage_status_fail (env : PipelineEnv)
    (req : ImageProcessRequest) (ts : ℕ) (resp : HTTPResponse)
    (hc : configOk env.config = true) (hf : env.fetchResult = .ok resp)
    (hs : raisesForStatus resp.status = true) :
    processImage env req ts =
      ([.fetchImage req.image_url], .error ⟨400, .fetchError⟩) := by
  simp [processImage, hc, hf, hs]

theorem processImage_putRaw_fail (env : PipelineEnv)
    (req : ImageProcessRequest) (ts : ℕ) (resp : HTTPResponse)
    (hc : configOk env.config = true) (hf : env.fetchResult = .ok resp)
    (hs : raisesForStatus resp.status = false)
    (hp : env.putRawResult = .error ()) :
    processImage env req ts =
      ([.fetchImage req.image_url, .putObject (rawKeyOf req ts resp)],
       .error ⟨500, .storageError⟩) := by
  simp [processImage, hc, hf, hs, hp]

theorem processImage_decode_fail (env : PipelineEnv)
    (req : ImageProcessRequest) (ts : ℕ) (resp : HTTPResponse)
    (hc : configOk env.config = true) (hf : env.fetchResult = .ok resp)
    (hs : raisesForStatus resp.status = false)
    (hp : env.putRawResult = .ok ()) (hd : env.decodeResult = .error ()) :
    processImage env req ts =
      ([.fetchImage req.image_url, .putObject (rawKeyOf req ts resp),
        .decodeCall], .error ⟨500, .decodeError⟩) := by
  simp [processImage, hc, hf, hs, hp, hd]

theorem processImage_encode_fail (env : PipelineEnv)
    (req : ImageProcessRequest) (ts : ℕ) (resp : HTTPResponse)
    (img : PILImage) (hc : configOk env.config = true)
    (hf : env.fetchResult = .ok resp)
    (hs : raisesForStatus resp.status = false)
    (hp : env.putRawResult = .ok ()) (hd : env.decodeResult = .ok img)
    (he : env.encodeResult (decodedFinal img) req.quality = .error ()) :
    processImage env req ts =
      ([.fetchImage req.image_url, .putObject (rawKeyOf req ts resp),
        .decodeCall, .encodeCall (decodedFinal img).mode req.quality],
       .error ⟨500, .encodeError⟩) := by
  simp [processImage, hc, hf, hs, hp, hd, he]

theorem processImage_putProcessed_fail (env : PipelineEnv)
    (req : ImageProcessRequest) (ts : ℕ) (resp : HTTPResponse)
    (img : PILImage) (webp : List ℕ) (hc : configOk env.config = true)
    (hf : env.fetchResult = .ok resp)
    (hs : raisesForStatus resp.status = false)
    (hp : env.putRawResult = .ok ()) (hd : env.decodeResult = .ok img)
    (he : env.encodeResult (decodedFinal img) req.quality = .ok webp)
    (hq : env.putProcessedResult = .error ()) :
    processImage env req ts =
      (successCalls req ts resp img, .error ⟨500, .storageError⟩) := by
  simp [processImage, hc, hf, hs, hp, hd, he, hq]

theorem processImage_success (env : PipelineEnv)
    (req : ImageProcessRequest) (ts : ℕ) (resp : HTTPResponse)
    (img : PILImage) (webp : List ℕ) (hc : configOk env.config = true)
    (hf : env.fetchResult = .ok resp)
    (hs : raisesForStatus resp.status = false)
    (hp : env.putRawResult = .ok ()) (hd : env.decodeResult = .ok img)
    (he : env.encodeResult (decodedFinal img) req.quality = .ok webp)
    (hq : env.putProcessedResult = .ok ())
    (hb : resp.body.length ≠ 0) :
    processImage env req ts =
      (successCalls req ts resp img,
       .ok (successReport env.config req ts resp img webp)) := by
  simp [processImage, hc, hf, hs, hp, hd, he, hq, hb]

/-- Inversion: a successful response pins down every oracle outcome, the
full trace, and the exact report. -/
theorem processImage_ok_elim (env : PipelineEnv)
    (req : ImageProcessRequest) (ts : ℕ) (r : PipelineReport)
    (h : (processImage env req ts).2 = .ok r) :
    ∃ resp img webp,
      configOk env.config = true ∧
      env.fetchResult = .ok resp ∧
      raisesForStatus resp.status = false ∧
      env.putRawResult = .ok () ∧
      env.decodeResult = .ok img ∧
      env.encodeResult (decodedFinal img) req.quality = .ok webp ∧
      env.putProcessedResult = .ok () ∧
      resp.body.length ≠ 0 ∧
      (processImage env req ts).1 = successCalls req ts resp img ∧
      r = successReport env.config req ts resp img webp := by
  rcases hc : configOk env.config with _ | _
  · rw [processImage_config_missing env req ts hc] at h; simp at h
  · rcases hf : env.fetchResult with u | resp
    · cases u
      rw [processImage_network_fail env req ts hc hf] at h; simp at h
    · rcases hs : raisesForStatus resp.status with _ | _
      · rcases hp : env.putRawResult with u | u
        · cases u
          rw [processImage_putRaw_fail env req ts resp hc hf hs hp] at h
          simp at h
        · cases u
          rcases hd : env.decodeResult with u | img
          · cases u
            rw [processImage_decode_fail env req ts resp hc hf hs hp hd] at h
            simp at h
          · rcases he : env.encodeResult (decodedFinal img) req.quality
              with u | webp
            · cases u
              rw [processImage_encode_fail env req ts resp img
                hc hf hs hp hd he] at h
              simp at h
            · rcases hq : env.putProcessedResult with u | u
              · cases u
                rw [processImage_putProcessed_fail env req ts resp img webp
                  hc hf hs hp hd he hq] at h
                simp at h
              · cases u
                rcases hb : resp.body.length with _ | n
                · simp [processImage, hc, hf, hs, hp, hd, he, hq, hb] at h
                · have hb' : resp.body.length ≠ 0 := by omega
                  rw [processImage_success env req ts resp img webp
                    hc hf hs hp hd he hq hb'] at h
                  simp only [Except.ok.injEq] at h
                  refine ⟨resp, img, webp, ?_, ?_, ?_, ?_, ?_, ?_, ?_, ?_,
                    ?_, ?_⟩ <;>
                    first
                      | rfl
                      | assumption
                      | omega
                      | rw [processImage_success env req ts resp img webp
                          hc hf hs hp hd he hq hb']
                      | exact h.symm
      · rw [processImage_status_fail env req ts resp hc hf hs] at h
        simp at h

theorem pyRound_le_of_le {q : ℚ} {b : ℤ} (h : q ≤ (b : ℚ)) :
    pyRound q ≤ b := by
  have h1 := pyRound_sub_le q
  rw [abs_le] at h1
  have h2 : (pyRound q : ℚ) < (b : ℚ) + 1 := by linarith
  have h3 : pyRound q < b + 1 := by exact_mod_cast h2
  omega

theorem toNat_pyRound_cast {q : ℚ} (h0 : 0 ≤ q) :
    (((pyRound q).toNat : ℚ)) = (pyRound q : ℚ) := by
  exact_mod_cast congrArg (Int.cast : ℤ → ℚ)
    (Int.toNat_of_nonneg (pyRound_nonneg q h0))

/-- C1: for a decoded image of width `w` and height `h`, if
`max w h ≤ 4000` the final dimensions equal the original dimensions and the
resized flag is false; if `max w h > 4000` the larger final dimension is
exactly 4000, the other equals `round(other * 4000 / max w h)` under
Python rounding, the aspect ratio is preserved within one pixel of
rounding, and the resized flag is true. -/
theorem geometric_normalizer_spec (w h : ℕ) :
    (max w h ≤ 4000 → resizeDims w h = (w, h, false)) ∧
    (4000 < max w h →
      (resizeDims w h).2.2 = true ∧
      max (resizeDims w h).1 (resizeDims w h).2.1 = 4000 ∧
      min (resizeDims w h).1 (resizeDims w h).2.1 =
        (pyRound (((min w h : ℕ) : ℚ) * 4000 / ((max w h : ℕ) : ℚ))).toNat ∧
      |(((min (resizeDims w h).1 (resizeDims w h).2.1 : ℕ) : ℚ)) -
        ((min w h : ℕ) : ℚ) * 4000 / ((max w h : ℕ) : ℚ)| ≤ 1) := by
  constructor
  · intro hle
    have hc : ¬(maxDimension < w ∨ maxDimension < h) := by
      simp only [maxDimension]; omega
    simp [resizeDims, hc]
  · intro hgt
    have hc : maxDimension < w ∨ maxDimension < h := by
      simp only [maxDimension]; omega
    rcases le_or_lt h w with hhw | hwh
    · have hw0 : (0 : ℚ) < (w : ℚ) := by
        have hw : 0 < w := by omega
        exact_mod_cast hw
      have hres : resizeDims w h =
          (4000, (pyRound ((h : ℚ) * 4000 / (w : ℚ))).toNat, true) := by
        rw [resizeDims, if_pos hc, if_pos hhw]; rfl
      have hq0 : (0 : ℚ) ≤ (h : ℚ) * 4000 / (w : ℚ) := by positivity
      have hqle : (h : ℚ) * 4000 / (w : ℚ) ≤ ((4000 : ℤ) : ℚ) := by
        rw [div_le_iff₀ hw0]
        have hcast : (h : ℚ) ≤ (w : ℚ) := by exact_mod_cast hhw
        push_cast
        nlinarith
      have hrle : pyRound ((h : ℚ) * 4000 / (w : ℚ)) ≤ 4000 :=
        pyRound_le_of_le hqle
      have htn : (pyRound ((h : ℚ) * 4000 / (w : ℚ))).toNat ≤ 4000 := by omega
      rw [hres, Nat.max_eq_left hhw, Nat.min_eq_right hhw]
      refine ⟨rfl, ?_, ?_, ?_⟩
      · exact Nat.max_eq_left htn
      · exact Nat.min_eq_right htn
      · rw [Nat.min_eq_right htn, toNat_pyRound_cast hq0]
        calc |(pyRound ((h : ℚ) * 4000 / (w : ℚ)) : ℚ) -
                (h : ℚ) * 4000 / (w : ℚ)| ≤ 1/2 :=
              pyRound_sub_le _
          _ ≤ 1 := by norm_num
    · have hh0 : (0 : ℚ) < (h : ℚ) := by
        have hh : 0 < h := by omega
        exact_mod_cast hh
      have hres : resizeDims w h =
          ((pyRound ((w : ℚ) * 4000 / (h : ℚ))).toNat, 4000, true) := by
        rw [resizeDims, if_pos hc, if_neg (by omega)]; rfl
      have hq0 : (0 : ℚ) ≤ (w : ℚ) * 4000 / (h : ℚ) := by positivity
      have hqle : (w : ℚ) * 4000 / (h : ℚ) ≤ ((4000 : ℤ) : ℚ) := by
        rw [div_le_iff₀ hh0]
        have hcast : (w : ℚ) ≤ (h : ℚ) := by
          exact_mod_cast Nat.le_of_lt hwh
        push_cast
        nlinarith
      have hrle : pyRound ((w : ℚ) * 4000 / (h : ℚ)) ≤ 4000 :=
        pyRound_le_of_le hqle
      have htn : (pyRound ((w : ℚ) * 4000 / (h : ℚ))).toNat ≤ 4000 := by omega
      rw [hres, Nat.max_eq_right (Nat.le_of_lt hwh),
        Nat.min_eq_left (Nat.le_of_lt hwh)]
      refine ⟨rfl, ?_, ?_, ?_⟩
      · exact Nat.max_eq_right htn
      · exact Nat.min_eq_left htn
      · rw [Nat.min_eq_left htn, toNat_pyRound_cast hq0]
        calc |(pyRound ((w : ℚ) * 4000 / (h : ℚ)) : ℚ) -
                (w : ℚ) * 4000 / (h : ℚ)| ≤ 1/2 :=
              pyRound_sub_le _
          _ ≤ 1 := by norm_num

/-- C1 witness: the geometry theorem applied to an 8000×2000 image. -/
theorem geometric_normalizer_spec_witness :
    4000 < max 8000 2000 ∧
    ((resizeDims 8000 2000).2.2 = true ∧
      max (resizeDims 8000 2000).1 (resizeDims 8000 2000).2.1 = 4000 ∧
      min (resizeDims 8000 2000).1 (resizeDims 8000 2000).2.1 =
        (pyRound (((min 8000 2000 : ℕ) : ℚ) * 4000 / ((max 8000 2000 : ℕ) : ℚ))).toNat ∧
      |(((min (resizeDims 8000 2000).1 (resizeDims 8000 2000).2.1 : ℕ) : ℚ)) -
        ((min 8000 2000 : ℕ) : ℚ) * 4000 / ((max 8000 2000 : ℕ) : ℚ)| ≤ 1) :=
  ⟨by norm_num, (geometric_normalizer_spec 8000 2000).2 (by norm_num)⟩

/-- C2: the buffer handed to the WebP encoder is never palette-indexed;
alpha-bearing inputs (an alpha-channel mode, or a palette-indexed image
carrying transparency) yield an alpha-capable output with transparency
preserved; and a non-alpha, non-palette input whose mode is not plain
three-channel `RGB` is converted to `RGB`. -/
theorem encoding_normalizer_spec (img : PILImage) :
    (normalizeEncoding img).mode ≠ .P ∧
    ((alphaCapable img.mode = true ∨
        (img.mode = .P ∧ img.transparent = true)) →
      alphaCapable (normalizeEncoding img).mode = true ∧
      (normalizeEncoding img).transparent = img.transparent) ∧
    ((alphaCapable img.mode = false ∧ img.mode ≠ .P ∧ img.mode ≠ .RGB) →
      (normalizeEncoding img).mode = .RGB) := by
  obtain ⟨m, w, h, t⟩ := img
  cases m <;> cases t <;>
    simp [normalizeEncoding, PILImage.convert, alphaCapable]

/-- C2 witness: a palette-indexed image with transparency becomes
alpha-capable with its transparency intact, and is no longer
palette-indexed. -/
theorem encoding_normalizer_spec_witness :
    (alphaCapable (PILImage.mk .P 8 8 true).mode = true ∨
      ((PILImage.mk .P 8 8 true).mode = .P ∧
        (PILImage.mk .P 8 8 true).transparent = true)) ∧
    (alphaCapable (normalizeEncoding (PILImage.mk .P 8 8 true)).mode = true ∧
      (normalizeEncoding (PILImage.mk .P 8 8 true)).transparent =
        (PILImage.mk .P 8 8 true).transparent) :=
  ⟨Or.inr ⟨rfl, rfl⟩,
    (encoding_normalizer_spec (PILImage.mk .P 8 8 true)).2.1
      (Or.inr ⟨rfl, rfl⟩)⟩

/-- C3: for every successful request, the reported compression ratio equals
`round((1 - processed_bytes / raw_bytes) * 100, 2)` computed from the
reported byte counts, and the raw byte count is positive. -/
theorem compression_ratio_spec (env : PipelineEnv)
    (req : ImageProcessRequest) (ts : ℕ) (r : PipelineReport)
    (h : (processImage env req ts).2 = .ok r) :
    0 < r.original_size_bytes ∧
    r.compression_ratio =
      round2 ((1 - (r.processed_size_bytes : ℚ) /
        (r.original_size_bytes : ℚ)) * 100) := by
  obtain ⟨resp, img, webp, -, -, -, -, -, -, -, hb, -, hr⟩ :=
    processImage_ok_elim env req ts r h
  subst hr
  exact ⟨Nat.pos_of_ne_zero hb, rfl⟩

/-- The storage key of a put call, if any. -/
def putKeyOf : ComponentCall → Option String
  | .putObject k => some k
  | _ => none

/-- The storage key of a delete call, if any. -/
def deleteKeyOf : ComponentCall → Option String
  | .deleteObject k => some k
  | _ => none

/-- Whether a pipeline response is the error envelope. -/
def resultIsError : Except ErrorResponse PipelineReport → Bool
  | .error _ => true
  | .ok _ => false

/-! Concrete instances used by the witnesses. -/

def goodConfig : S3Config :=
  { accessKeyId := some "key", secretAccessKey := some "secret",
    bucketName := some "bucket", region := "us-east-1" }

def goodResp : HTTPResponse :=
  { status := 200, contentType := some "image/png", body := [0, 1, 2, 3] }

def goodImg : PILImage :=
  { mode := .RGB, width := 800, height := 600, transparent := false }

def goodReq : ImageProcessRequest :=
  { image_url := "https://example.com/a.png", variant_id := "v", quality := 85 }

def goodEnv : PipelineEnv :=
  { config := goodConfig, fetchResult := .ok goodResp, putRawResult := .ok (),
    decodeResult := .ok goodImg, encodeResult := fun _ _ => .ok [9, 9],
    putProcessedResult := .ok () }

def unsetConfig : S3Config :=
  { accessKeyId := none, secretAccessKey := none, bucketName := none,
    region := "us-east-1" }

def noConfigEnv : PipelineEnv :=
  { config := unsetConfig, fetchResult := .ok goodResp,
    putRawResult := .ok (), decodeResult := .ok goodImg,
    encodeResult := fun _ _ => .ok [9, 9], putProcessedResult := .ok () }

def notFoundResp : HTTPResponse :=
  { status := 404, contentType := some "text/html", body := [1] }

def notFoundEnv : PipelineEnv :=
  { goodEnv with fetchResult := .ok notFoundResp }

def redirectResp : HTTPResponse :=
  { status := 304, contentType := some "image/png", body := [0, 1, 2, 3] }

def redirectEnv : PipelineEnv :=
  { goodEnv with fetchResult := .ok redirectResp }

def decodeFailEnv : PipelineEnv :=
  { goodEnv with decodeResult := .error () }

def extremeReq : ImageProcessRequest :=
  { image_url := "https://example.com/a.png", variant_id := "v",
    quality := 999 }

/-- C3 witness: a concrete successful run reports
`round((1 - 2/4) * 100, 2) = 50` as its compression ratio. -/
theorem compression_ratio_spec_witness :
    (processImage goodEnv goodReq 7).2 =
      .ok (successReport goodConfig goodReq 7 goodResp goodImg [9, 9]) ∧
    (0 < (successReport goodConfig goodReq 7 goodResp goodImg
        [9, 9]).original_size_bytes ∧
      (successReport goodConfig goodReq 7 goodResp goodImg
        [9, 9]).compression_ratio =
        round2 ((1 - ((successReport goodConfig goodReq 7 goodResp goodImg
          [9, 9]).processed_size_bytes : ℚ) /
          ((successReport goodConfig goodReq 7 goodResp goodImg
            [9, 9]).original_size_bytes : ℚ)) * 100)) :=
  ⟨rfl, compression_ratio_spec goodEnv goodReq 7 _ rfl⟩

/-- C4: the orchestrator is a linear state machine: the first failing
component call yields the error envelope carrying that component's error
kind and the trace stops at the failing call; a complete run issues all
five calls and returns the complete report. The response type is
all-or-nothing by construction: `.ok` carries a full `PipelineReport`,
`.error` only status and kind. -/
theorem pipeline_first_failure_spec (env : PipelineEnv)
    (req : ImageProcessRequest) (ts : ℕ) :
    (configOk env.config = false →
      processImage env req ts = ([], .error ⟨500, .configError⟩)) ∧
    (configOk env.config = true → env.fetchResult = .error () →
      processImage env req ts =
        ([.fetchImage req.image_url], .error ⟨400, .fetchError⟩)) ∧
    (∀ resp, configOk env.config = true → env.fetchResult = .ok resp →
      raisesForStatus resp.status = true →
      processImage env req ts =
        ([.fetchImage req.image_url], .error ⟨400, .fetchError⟩)) ∧
    (∀ resp, configOk env.config = true → env.fetchResult = .ok resp →
      raisesForStatus resp.status = false → env.putRawResult = .error () →
      processImage env req ts =
        ([.fetchImage req.image_url, .putObject (rawKeyOf req ts resp)],
         .error ⟨500, .storageError⟩)) ∧
    (∀ resp, configOk env.config = true → env.fetchResult = .ok resp →
      raisesForStatus resp.status = false → env.putRawResult = .ok () →
      env.decodeResult = .error () →
      processImage env req ts =
        ([.fetchImage req.image_url, .putObject (rawKeyOf req ts resp),
          .decodeCall], .error ⟨500, .decodeError⟩)) ∧
    (∀ resp img, configOk env.config = true → env.fetchResult = .ok resp →
      raisesForStatus resp.status = false → env.putRawResult = .ok () →
      env.decodeResult = .ok img →
      env.encodeResult (decodedFinal img) req.quality = .error () →
      processImage env req ts =
        ([.fetchImage req.image_url, .putObject (rawKeyOf req ts resp),
          .decodeCall, .encodeCall (decodedFinal img).mode req.quality],
         .error ⟨500, .encodeError⟩)) ∧
    (∀ resp img webp, configOk env.config = true →
      env.fetchResult = .ok resp → raisesForStatus resp.status = false →
      env.putRawResult = .ok () → env.decodeResult = .ok img →
      env.encodeResult (decodedFinal img) req.quality = .ok webp →
      env.putProcessedResult = .error () →
      processImage env req ts =
        (successCalls req ts resp img, .error ⟨500, .storageError⟩)) ∧
    (∀ resp img webp, configOk env.config = true →
      env.fetchResult = .ok resp → raisesForStatus resp.status = false →
      env.putRawResult = .ok () → env.decodeResult = .ok img →
      env.encodeResult (decodedFinal img) req.quality = .ok webp →
      env.putProcessedResult = .ok () → resp.body.length ≠ 0 →
      processImage env req ts =
        (successCalls req ts resp img,
         .ok (successReport env.config req ts resp img webp))) :=
  ⟨processImage_config_missing env req ts,
   processImage_network_fail env req ts,
   fun resp => processImage_status_fail env req ts resp,
   fun resp => processImage_putRaw_fail env req ts resp,
   fun resp => processImage_decode_fail env req ts resp,
   fun resp img => processImage_encode_fail env req ts resp img,
   fun resp img webp => processImage_putProcessed_fail env req ts resp img webp,
   fun resp img webp => processImage_success env req ts resp img webp⟩

/-- C4 witness: with the configuration missing, the run ends in the
configuration error with an empty trace. -/
theorem pipeline_first_failure_spec_witness :
    configOk noConfigEnv.config = false ∧
    processImage noConfigEnv goodReq 7 = ([], .error ⟨500, .configError⟩) :=
  ⟨rfl, (pipeline_first_failure_spec noConfigEnv goodReq 7).1 rfl⟩

/-- C5 (amended): a network failure, or a response status in `[400, 600)`
(the statuses `raise_for_status` raises for), yields the client-fault
envelope (HTTP 400, fetch error) and no storage upload call occurs. -/
theorem fetch_failure_spec (env : PipelineEnv) (req : ImageProcessRequest)
    (ts : ℕ) (hc : configOk env.config = true)
    (hf : env.fetchResult = .error () ∨
      ∃ resp, env.fetchResult = .ok resp ∧
        raisesForStatus resp.status = true) :
    (processImage env req ts).2 = .error ⟨400, .fetchError⟩ ∧
    (processImage env req ts).1.filterMap putKeyOf = [] := by
  rcases hf with hf | ⟨resp, hf, hs⟩
  · rw [processImage_network_fail env req ts hc hf]
    exact ⟨rfl, by simp [putKeyOf]⟩
  · rw [processImage_status_fail env req ts resp hc hf hs]
    exact ⟨rfl, by simp [putKeyOf]⟩

/-- C5 witness: a 404 response fails with the 400 fetch-error envelope and
issues no storage call. -/
theorem fetch_failure_spec_witness :
    configOk notFoundEnv.config = true ∧
    notFoundEnv.fetchResult = .ok notFoundResp ∧
    raisesForStatus notFoundResp.status = true ∧
    ((processImage notFoundEnv goodReq 7).2 = .error ⟨400, .fetchError⟩ ∧
      (processImage notFoundEnv goodReq 7).1.filterMap putKeyOf = []) :=
  ⟨rfl, rfl, rfl,
    fetch_failure_spec notFoundEnv goodReq 7 rfl (Or.inr ⟨notFoundResp, rfl, rfl⟩)⟩

/-- C5 counterexample to the claim as stated: a non-2xx response with
status 304 (`raise_for_status` only raises for 4xx/5xx) does not fail —
the run succeeds and the raw upload occurs. -/
theorem fetch_non2xx_counterexample :
    ¬(200 ≤ redirectResp.status ∧ redirectResp.status < 300) ∧
    (processImage redirectEnv goodReq 7).2 =
      .ok (successReport goodConfig goodReq 7 redirectResp goodImg [9, 9]) ∧
    ComponentCall.putObject (rawKeyOf goodReq 7 redirectResp) ∈
      (processImage redirectEnv goodReq 7).1 := by
  refine ⟨by decide, rfl, by decide⟩

/-- C6: when any storage credential or the bucket name is unset (or empty),
the invocation fails immediately with the configuration-fault envelope
(HTTP 500) and the trace is empty: no fetch and no storage call occurs. -/
theorem config_fault_spec (env : PipelineEnv) (req : ImageProcessRequest)
    (ts : ℕ) (hc : configOk env.config = false) :
    processImage env req ts = ([], .error ⟨500, .configError⟩) :=
  processImage_config_missing env req ts hc

/-- C6 witness: with all three variables unset the run fails with the
configuration error before any call. -/
theorem config_fault_spec_witness :
    configOk noConfigEnv.config = false ∧
    processImage noConfigEnv goodReq 9 = ([], .error ⟨500, .configError⟩) :=
  ⟨rfl, config_fault_spec noConfigEnv goodReq 9 rfl⟩

/-- C7: a successful invocation issues exactly two storage keys, of the
forms `images/{vid}_{tok}_raw{ext}` and `images/{vid}_{tok}_processed.webp`
with the same timestamp token; the two keys of one invocation are always
distinct; and keys of invocations with different timestamp tokens never
collide. -/
theorem storage_key_spec (env : PipelineEnv) (req : ImageProcessRequest)
    (ts : ℕ) (v1 v2 : String) (t1 t2 : ℕ) :
    (∀ r, (processImage env req ts).2 = .ok r →
      ∃ ext ∈ extList,
        (processImage env req ts).1.filterMap putKeyOf =
          [rawKey req.variant_id (natToken ts) ext,
           processedKey req.variant_id (natToken ts)]) ∧
    (∀ ext ∈ extList,
      rawKey v1 (natToken t1) ext ≠ processedKey v1 (natToken t1)) ∧
    (natToken t1 ≠ natToken t2 →
      ∀ e1 ∈ extList, ∀ e2 ∈ extList,
        rawKey v1 (natToken t1) e1 ≠ rawKey v2 (natToken t2) e2 ∧
        rawKey v1 (natToken t1) e1 ≠ processedKey v2 (natToken t2) ∧
        processedKey v1 (natToken t1) ≠ rawKey v2 (natToken t2) e2 ∧
        processedKey v1 (natToken t1) ≠ processedKey v2 (natToken t2)) := by
  refine ⟨?_, ?_, ?_⟩
  · intro r h
    obtain ⟨resp, img, webp, -, -, -, -, -, -, -, -, htrace, -⟩ :=
      processImage_ok_elim env req ts r h
    refine ⟨extMap (defaultContentType resp.contentType),
      extMap_mem_extList _, ?_⟩
    rw [htrace]
    simp [successCalls, putKeyOf, rawKeyOf, processedKeyOf]
  · intro ext he
    exact rawKey_ne_processedKey he
  · intro hne e1 he1 e2 he2
    refine ⟨?_, rawKey_ne_processedKey he1,
      Ne.symm (rawKey_ne_processedKey he2), ?_⟩
    · intro h
      exact hne (rawKey_inj_token he1 he2 (natToken_no_underscore t1)
        (natToken_no_underscore t2) h)
    · intro h
      exact hne (processedKey_inj_token (natToken_no_underscore t1)
        (natToken_no_underscore t2) h)

/-- C7 witness: the key facts at a successful concrete run and at two
concrete invocations with tokens "1" and "2". -/
theorem storage_key_spec_witness :
    (processImage goodEnv goodReq 7).2 =
      .ok (successReport goodConfig goodReq 7 goodResp goodImg [9, 9]) ∧
    natToken 1 ≠ natToken 2 ∧
    ".jpg" ∈ extList ∧ ".png" ∈ extList ∧
    (∃ ext ∈ extList,
      (processImage goodEnv goodReq 7).1.filterMap putKeyOf =
        [rawKey "v" (natToken 7) ext, processedKey "v" (natToken 7)]) ∧
    (rawKey "a" (natToken 1) ".jpg" ≠ rawKey "b" (natToken 2) ".png" ∧
      rawKey "a" (natToken 1) ".jpg" ≠ processedKey "b" (natToken 2) ∧
      processedKey "a" (natToken 1) ≠ rawKey "b" (natToken 2) ".png" ∧
      processedKey "a" (natToken 1) ≠ processedKey "b" (natToken 2)) :=
  ⟨rfl, by decide, by decide, by decide,
    (storage_key_spec goodEnv goodReq 7 "a" "b" 1 2).1
      (successReport goodConfig goodReq 7 goodResp goodImg [9, 9]) rfl,
    (storage_key_spec goodEnv goodReq 7 "a" "b" 1 2).2.2 (by decide)
      ".jpg" (by decide) ".png" (by decide)⟩

/-- C8: the content-type resolver is total: the six recognised MIME types
map to their listed extensions, every other string maps to `.jpg`, and an
absent header defaults to the MIME type `image/jpeg`. -/
theorem content_type_resolver_spec (s : String) :
    extMap "image/jpeg" = ".jpg" ∧ extMap "image/png" = ".png" ∧
    extMap "image/gif" = ".gif" ∧ extMap "image/webp" = ".webp" ∧
    extMap "image/bmp" = ".bmp" ∧ extMap "image/tiff" = ".tiff" ∧
    (s ∉ knownContentTypes → extMap s = ".jpg") ∧
    defaultContentType none = "image/jpeg" := by
  refine ⟨by decide, by decide, by decide, by decide, by decide, by decide,
    ?_, rfl⟩
  intro hs
  have h : ¬s = "image/jpeg" ∧ ¬s = "image/png" ∧ ¬s = "image/gif" ∧
      ¬s = "image/webp" ∧ ¬s = "image/bmp" ∧ ¬s = "image/tiff" := by
    simpa [knownContentTypes] using hs
  obtain ⟨h1, h2, h3, h4, h5, h6⟩ := h
  simp [extMap, h1, h2, h3, h4, h5, h6]

/-- C8 witness: an unrecognised content type resolves to `.jpg`. -/
theorem content_type_resolver_spec_witness :
    "text/html" ∉ knownContentTypes ∧ extMap "text/html" = ".jpg" :=
  ⟨by decide,
    (content_type_resolver_spec "text/html").2.2.2.2.2.2.1 (by decide)⟩

/-- C9: the quality parameter is neither rejected nor clamped: for any
integer quality, a run whose external calls succeed returns the success
report, and the encoder is invoked with exactly the requested quality. -/
theorem quality_passthrough_spec (env : PipelineEnv)
    (req : ImageProcessRequest) (ts : ℕ) (resp : HTTPResponse)
    (img : PILImage) (webp : List ℕ) (hc : configOk env.config = true)
    (hf : env.fetchResult = .ok resp)
    (hs : raisesForStatus resp.status = false)
    (hp : env.putRawResult = .ok ()) (hd : env.decodeResult = .ok img)
    (he : env.encodeResult (decodedFinal img) req.quality = .ok webp)
    (hq : env.putProcessedResult = .ok ())
    (hb : resp.body.length ≠ 0) :
    resultIsError (processImage env req ts).2 = false ∧
    ComponentCall.encodeCall (decodedFinal img).mode req.quality ∈
      (processImage env req ts).1 := by
  rw [processImage_success env req ts resp img webp hc hf hs hp hd he hq hb]
  exact ⟨rfl, by simp [successCalls]⟩

/-- C9 witness: quality 999, far outside 1–100, is accepted and handed
unchanged to the encoder. -/
theorem quality_passthrough_spec_witness :
    extremeReq.quality = 999 ∧
    (resultIsError (processImage goodEnv extremeReq 7).2 = false ∧
      ComponentCall.encodeCall (decodedFinal goodImg).mode 999 ∈
        (processImage goodEnv extremeReq 7).1) :=
  ⟨rfl, quality_passthrough_spec goodEnv extremeReq 7 goodResp goodImg
    [9, 9] rfl rfl rfl rfl rfl rfl rfl (by decide)⟩

/-- C10: when a stage after the raw upload fails (decode, encode, or the
processed upload), the run ends in the error envelope, yet the raw-artifact
put call was issued in this invocation, and no failure path ever issues a
delete: the raw object is never rolled back. -/
theorem orphaned_raw_spec (env : PipelineEnv) (req : ImageProcessRequest)
    (ts : ℕ) (resp : HTTPResponse) (hc : configOk env.config = true)
    (hf : env.fetchResult = .ok resp)
    (hs : raisesForStatus resp.status = false)
    (hp : env.putRawResult = .ok ())
    (hfail : env.decodeResult = .error () ∨
      (∃ img, env.decodeResult = .ok img ∧
        env.encodeResult (decodedFinal img) req.quality = .error ()) ∨
      (∃ img webp, env.decodeResult = .ok img ∧
        env.encodeResult (decodedFinal img) req.quality = .ok webp ∧
        env.putProcessedResult = .error ())) :
    resultIsError (processImage env req ts).2 = true ∧
    ComponentCall.putObject (rawKeyOf req ts resp) ∈
      (processImage env req ts).1 ∧
    (processImage env req ts).1.filterMap deleteKeyOf = [] := by
  rcases hfail with hd | ⟨img, hd, he⟩ | ⟨img, webp, hd, he, hq⟩
  · rw [processImage_decode_fail env req ts resp hc hf hs hp hd]
    exact ⟨rfl, by simp, by simp [deleteKeyOf]⟩
  · rw [processImage_encode_fail env req ts resp img hc hf hs hp hd he]
    exact ⟨rfl, by simp, by simp [deleteKeyOf]⟩
  · rw [processImage_putProcessed_fail env req ts resp img webp
      hc hf hs hp hd he hq]
    exact ⟨rfl, by simp [successCalls],
      by simp [successCalls, deleteKeyOf]⟩

/-- C10 witness: a failing decode after a successful raw upload leaves the
raw put call issued, the response an error, and no delete call. -/
theorem orphaned_raw_spec_witness :
    decodeFailEnv.decodeResult = .error () ∧
    (resultIsError (processImage decodeFailEnv goodReq 7).2 = true ∧
      ComponentCall.putObject (rawKeyOf goodReq 7 goodResp) ∈
        (processImage decodeFailEnv goodReq 7).1 ∧
      (processImage decodeFailEnv goodReq 7).1.filterMap deleteKeyOf = []) :=
  ⟨rfl, orphaned_raw_spec decodeFailEnv goodReq 7 goodResp
    rfl rfl rfl rfl (Or.inl rfl)⟩

end AxentApis
